import Mathlib

/-!
Shallow embedding of `util/aws/ec2.py` from the cloudigrade repository.

Python functions are translated into Lean definitions.  AWS-side behaviour
(the results of boto3 network calls) is passed in explicitly as data:

* the result of `image.load()` and the metadata it populates are fields of
  the `Image` structure;
* the permission list that `describe_attribute` reports after a
  `modify_attribute` call is a field of the `Snapshot` structure;
* client calls that mutate AWS (`copy_image`, `create_tags`,
  `modify_attribute`, `create_volume`) are recorded in an explicit action
  trace returned alongside the result.

Python exceptions are modelled by an `Except Ec2Error` result; the
constructors of `Ec2Error` mirror the exception classes the module raises
(`AwsImageError`, `ImageNotReadyException`, ...), plus `clientError` for a
re-raised `botocore` `ClientError` and `indexError` for Python's built-in
`IndexError`.
-/

namespace Cloudigrade

/-- The error information carried by a botocore `ClientError`:
`e.response["Error"]["Code"]` and `e.response["Error"]["Message"]`. -/
structure ClientErrorInfo where
  code : String
  message : String
  deriving Repr, DecidableEq

/-- The exceptions raised by `util/aws/ec2.py`, plus the untyped Python
errors that can escape it. -/
inductive Ec2Error where
  | awsImageError (message : String)
  | imageNotReadyException (message : String)
  | awsSnapshotNotOwnedError (message : String)
  | awsSnapshotOwnedError (message : String)
  | awsSnapshotCopyLimitError (message : String)
  | awsSnapshotError (message : String)
  | snapshotNotReadyException (message : String)
  | awsVolumeError (message : String)
  | awsVolumeNotReadyError
  | clientError (e : ClientErrorInfo)
  | indexError
  deriving Repr, DecidableEq

/-- One entry of `image.block_device_mappings`: a device name and the
optional `"Ebs"` sub-dict with its optional `"SnapshotId"`. -/
structure BlockDeviceMapping where
  deviceName : String
  ebsSnapshotId : Option (Option String)
  deriving Repr, DecidableEq

/-- A boto3 EC2 `Image` resource.  `loadResult` is the outcome of
`image.load()` (`some e` when it raises a `ClientError e`); `metaData`
records whether `image.meta.data` is populated after a successful load
(`false` models Python `None`). -/
structure Image where
  id : String
  name : String
  state : String
  state_reason : String
  root_device_name : String
  block_device_mappings : List BlockDeviceMapping
  loadResult : Option ClientErrorInfo
  metaData : Bool
  deriving Repr, DecidableEq

/-- A boto3 EC2 `Snapshot` resource.  `createVolumePermissions` is the list
of `UserId`s that `describe_attribute(Attribute="createVolumePermission")`
reports when it is called (i.e. the read-back after a modify call). -/
structure Snapshot where
  snapshot_id : String
  state : String
  progress : String
  createVolumePermissions : List String
  deriving Repr, DecidableEq

/-- EC2 client calls that mutate AWS state, recorded as an explicit trace. -/
inductive Ec2Action where
  | modifyAttribute (operationType : String) (userId : String)
  | describeAttribute (attributeName : String)
  | copyImage (name : String) (sourceImageId : String) (sourceRegion : String)
  | createTags (resources : List String) (tags : List (String × String))
  | createVolume (snapshotId : String) (availabilityZone : String)
  deriving Repr, DecidableEq

/-- Python string slicing `s[:n]`: the first `n` characters of `s`. -/
def pySlice (s : String) (n : Nat) : String :=
  String.mk (s.data.take n)

/-- Python `s.endswith(suffix)`: the characters of `suffix` are a suffix of
the characters of `s`. -/
def pyEndsWith (s suffix : String) : Bool :=
  suffix.data.isSuffixOf s.data

/-- Python `s.lower()`, character-wise case folding (the strings compared in
this module are ASCII). -/
def pyLower (s : String) : String :=
  String.mk (s.data.map Char.toLower)

/-- `InstanceState` enum from `ec2.py`: EC2 instance state codes. -/
inductive InstanceState where
  | pending
  | running
  | shutting_down
  | terminated
  | stopping
  | stopped
  deriving Repr, DecidableEq

/-- The numeric value of each `InstanceState` member. -/
def InstanceState.value : InstanceState → Int
  | .pending => 0
  | .running => 16
  | .shutting_down => 32
  | .terminated => 48
  | .stopping => 64
  | .stopped => 80

/-- `InstanceState.is _running(code)`: true only for the running code. -/
def InstanceState.isRunning (code : Int) : Bool :=
  code == InstanceState.running.value

/-- One instance dict from a `describe_instances` reservation;
`stateCode` is `instance.get("State", {}).get("Code", None)`. -/
structure Instance where
  instanceId : String
  stateCode : Option Int
  deriving Repr, DecidableEq

/-- One reservation dict from a `describe_instances` response. -/
structure Reservation where
  instances : List Instance
  deriving Repr, DecidableEq

/-- A boto3 session together with the AWS-side data its calls return:
the regions `get_regions(session)` yields, and for each region the
reservations that `describe_instances` returns there. -/
structure Session where
  regions : List String
  reservationsOf : String → List Reservation

/-- `describe_instances_everywhere(session)`: for every known region,
collect the instances of every reservation, excluding instances whose
state code is the terminated value.  The Python builds a dict keyed by
region; we model it as an association list in region order. -/
def describe_instances_everywhere (session : Session) :
    List (String × List Instance) :=
  session.regions.map fun region_name =>
    (region_name,
      (session.reservationsOf region_name).foldl
        (fun acc reservation =>
          acc ++ reservation.instances.filter
            (fun inst => inst.stateCode != some InstanceState.terminated.value))
        [])

/-- `describe_images(session, image_ids, source_region)`: returns the
`"Images"` list of the AWS response; the response list is the input here. -/
def describe_images (response_images : List Image) : List Image :=
  response_images

/-- `describe_image(session, image_id, source_region)`: takes element `[0]`
of the batch result; Python raises `IndexError` when the list is empty. -/
def describe_image (response_images : List Image) : Except Ec2Error Image :=
  match describe_images response_images with
  | [] => .error .indexError
  | img :: _ => .ok img

/-- `check_image_state(image)`: raise if the image state is not available. -/
def check_image_state (image : Image) : Except Ec2Error Unit :=
  match image.loadResult with
  | some e =>
    if pyEndsWith e.code ".NotFound" then
      .error (.awsImageError
        ("Image " ++ image.id ++ " cannot be loaded because: " ++ e.message))
    else
      .error (.clientError e)
  | none =>
    if !image.metaData then
      .error (.awsImageError
        ("Image " ++ image.id ++ " cannot be loaded, it has probably been deregistered."))
    else if image.state = "available" then
      .ok ()
    else
      let message := "Image " ++ image.id ++ " has state " ++ image.state ++
        " (reason: " ++ image.state_reason ++ ")"
      if image.state = "failed" then
        .error (.awsImageError message)
      else
        .error (.imageNotReadyException message)

/-- `get_ami(session, image_id, source_region)`: loads the image and checks
its state; an `AwsImageError` is caught and turns into `None`, every other
exception propagates. -/
def get_ami (image : Image) : Except Ec2Error (Option Image) :=
  match check_image_state image with
  | .ok () => .ok (some image)
  | .error (.awsImageError _) => .ok none
  | .error e => .error e

/-- `copy_ami(session, image_id, source_region)`: fetch the source image,
then copy it under a truncated marker name and tag the copy.
`new_image_id` is the `"ImageId"` of the AWS `copy_image` response. -/
def copy_ami (image : Image) (image_id source_region new_image_id : String) :
    List Ec2Action × Except Ec2Error (Option String) :=
  match get_ami image with
  | .error e => ([], .error e)
  | .ok none => ([], .ok none)
  | .ok (some old_image) =>
    let new_name := pySlice ("cloudigrade reference copy (" ++ old_image.name ++ ")") 128
    ([.copyImage new_name image_id source_region,
      .createTags [new_image_id]
        [("Name", new_name),
         ("cloudigrade original image id", old_image.id),
         ("cloudigrade original image name", old_image.name)]],
     .ok (some new_image_id))

/-- `get_ami_snapshot_id(ami)`: walk the block-device mappings, skip every
mapping whose device name differs from the root device name and return
`mapping.get("Ebs", {}).get("SnapshotId", "")` for the first match; Python
returns `None` when no mapping matches. -/
def get_ami_snapshot_id (ami : Image) : Option String :=
  go ami.block_device_mappings
where
  go : List BlockDeviceMapping → Option String
  | [] => none
  | mapping :: rest =>
    if mapping.deviceName ≠ ami.root_device_name then
      go rest
    else
      some (((mapping.ebsSnapshotId.getD none).getD ""))

/-- `add_snapshot_ownership(snapshot)`: issue the additive modify call, then
re-read the permission list and verify the user id is present. -/
def add_snapshot_ownership (snapshot : Snapshot) (user_id : String) :
    List Ec2Action × Except Ec2Error Unit :=
  let actions := [Ec2Action.modifyAttribute "add" user_id,
                  Ec2Action.describeAttribute "createVolumePermission"]
  if snapshot.createVolumePermissions.contains user_id then
    (actions, .ok ())
  else
    (actions, .error (.awsSnapshotNotOwnedError
      ("No CreateVolumePermissions on Snapshot " ++ snapshot.snapshot_id ++
       " for UserId " ++ user_id)))

/-- `remove_snapshot_ownership(snapshot)`: issue the subtractive modify
call, then re-read the permission list and fail if the user id remains. -/
def remove_snapshot_ownership (snapshot : Snapshot) (user_id : String) :
    List Ec2Action × Except Ec2Error Unit :=
  let actions := [Ec2Action.modifyAttribute "remove" user_id,
                  Ec2Action.describeAttribute "createVolumePermission"]
  if snapshot.createVolumePermissions.contains user_id then
    (actions, .error (.awsSnapshotOwnedError
      ("Failed to remove CreateVolumePermissions on Snapshot " ++
       snapshot.snapshot_id ++ " for user " ++ user_id)))
  else
    (actions, .ok ())

/-- The `"SnapshotId"` field of a snapshot `copy` response:
`response.get("SnapshotId")`. -/
structure CopySnapshotResponse where
  snapshotId : Option String
  deriving Repr, DecidableEq

/-- `copy_snapshot(snapshot_id, source_region)`: translate a
`ResourceLimitExceeded` client error, re-raise every other client error,
and on success return the new snapshot id.  `copyResult` is the outcome of
the AWS `snapshot.copy` call. -/
def copy_snapshot (copyResult : Except ClientErrorInfo CopySnapshotResponse) :
    Except Ec2Error (Option String) :=
  match copyResult with
  | .error e =>
    if e.code = "ResourceLimitExceeded" then
      .error (.awsSnapshotCopyLimitError e.message)
    else
      .error (.clientError e)
  | .ok response => .ok response.snapshotId

/-- `check_snapshot_state(snapshot)`: raise unless the state is completed. -/
def check_snapshot_state (snapshot : Snapshot) : Except Ec2Error Unit :=
  if snapshot.state = "completed" then
    .ok ()
  else
    let message := "Snapshot " ++ snapshot.snapshot_id ++ " has state " ++
      snapshot.state ++ " at " ++ snapshot.progress
    if snapshot.state = "error" then
      .error (.awsSnapshotError message)
    else
      .error (.snapshotNotReadyException message)

/-- `create_volume(snapshot_id, zone)`: check the snapshot state, then
create the volume.  `volume_id` is the id AWS assigns to the new volume. -/
def create_volume (snapshot : Snapshot) (zone volume_id : String) :
    List Ec2Action × Except Ec2Error String :=
  match check_snapshot_state snapshot with
  | .error e => ([], .error e)
  | .ok () =>
    ([.createVolume snapshot.snapshot_id zone], .ok volume_id)

/-- The argument of `is_windows`: either a dict (with an optional
`"Platform"` key) or an SDK object (with a `platform` attribute that
`getattr` reads, `none` modelling Python `None`). -/
inductive AwsData where
  | dict (platform : Option String)
  | obj (platform : Option String)
  deriving Repr, DecidableEq

/-- `is_windows(aws_data)`: dict inputs are compared case-insensitively
(`aws_data.get("Platform", "").lower() == "windows"`), object inputs
exactly (`getattr(aws_data, "platform", None) == "windows"`). -/
def is_windows : AwsData → Bool
  | .dict platform => pyLower (platform.getD "") == "windows"
  | .obj platform => platform == some "windows"

/-- Classifier for results of `describe_image`: is the result the
`ImageUnavailable`-kind typed failure (`AwsImageError`)? -/
def isImageUnavailableFailure : Except Ec2Error Image → Bool
  | .error (.awsImageError _) => true
  | _ => false

/-- A concrete session over two regions, one of them holding a running and a
terminated instance and the other empty. -/
def sampleSession : Session where
  regions := ["us-east-1", "eu-west-1"]
  reservationsOf := fun region =>
    if region = "us-east-1" then
      [⟨[⟨"i-1", some 16⟩, ⟨"i-2", some 48⟩]⟩]
    else
      []

/-- A concrete image whose root-device mapping is the second of two
block-device mappings and is backed by snapshot `snap-1`. -/
def sampleAmi : Image where
  id := "ami-7"
  name := "sample"
  state := "available"
  state_reason := ""
  root_device_name := "/dev/sda1"
  block_device_mappings :=
    [⟨"/dev/sdb", none⟩, ⟨"/dev/sda1", some (some "snap-1")⟩]
  loadResult := none
  metaData := true

/-- A concrete image whose root-device mapping has an `"Ebs"` dict without
a `"SnapshotId"` entry. -/
def sampleAmiNoSnapshotId : Image where
  id := "ami-8"
  name := "sample"
  state := "available"
  state_reason := ""
  root_device_name := "/dev/sda1"
  block_device_mappings := [⟨"/dev/sdb", none⟩, ⟨"/dev/sda1", some none⟩]
  loadResult := none
  metaData := true

/-- The 200-character image name used by the spec's `copyImage` round-trip
scenario. -/
def longImageName : String := String.mk (List.replicate 200 'X')

/-- A concrete available image carrying `longImageName`. -/
def longNameImage : Image where
  id := "ami-long"
  name := longImageName
  state := "available"
  state_reason := ""
  root_device_name := "/dev/sda1"
  block_device_mappings := []
  loadResult := none
  metaData := true

/-- **C1**: `check_image_state` succeeds exactly on a loadable image with
populated metadata and state `"available"`; state `"failed"` raises the
`AwsImageError` kind; any other non-`"available"` state raises the
retryable `ImageNotReadyException`; a load that produced an AWS not-found
client error raises `AwsImageError`; a load that succeeded but populated no
metadata raises `AwsImageError`. -/
theorem check_image_state_classification (image : Image) :
    (image.loadResult = none → image.metaData = true →
      image.state = "available" → check_image_state image = .ok ()) ∧
    (image.loadResult = none → image.metaData = true →
      image.state = "failed" →
      ∃ m, check_image_state image = .error (.awsImageError m)) ∧
    (image.loadResult = none → image.metaData = true →
      image.state ≠ "available" → image.state ≠ "failed" →
      ∃ m, check_image_state image = .error (.imageNotReadyException m)) ∧
    (∀ e, image.loadResult = some e → pyEndsWith e.code ".NotFound" = true →
      ∃ m, check_image_state image = .error (.awsImageError m)) ∧
    (image.loadResult = none → image.metaData = false →
      ∃ m, check_image_state image = .error (.awsImageError m)) := by
  refine ⟨?_, ?_, ?_, ?_, ?_⟩
  · intro hload hmeta hstate
    simp [check_image_state, hload, hmeta, hstate]
  · intro hload hmeta hstate
    simp [check_image_state, hload, hmeta, hstate]
  · intro hload hmeta hstate hfail
    simp [check_image_state, hload, hmeta, hstate, hfail]
  · intro e hload hcode
    simp [check_image_state, hload, hcode]
  · intro hload hmeta
    simp [check_image_state, hload, hmeta]

/-- Witness for C1: the five branches at concrete images. -/
theorem check_image_state_classification_witness :
    check_image_state ⟨"ami-a", "n", "available", "", "", [], none, true⟩ = .ok () ∧
    (∃ m, check_image_state ⟨"ami-b", "n", "failed", "", "", [], none, true⟩ =
      .error (.awsImageError m)) ∧
    (∃ m, check_image_state ⟨"ami-c", "n", "pending", "", "", [], none, true⟩ =
      .error (.imageNotReadyException m)) ∧
    (∃ m, check_image_state
        ⟨"ami-d", "n", "", "", "", [], some ⟨"InvalidAMIID.NotFound", "gone"⟩, true⟩ =
      .error (.awsImageError m)) ∧
    (∃ m, check_image_state ⟨"ami-e", "n", "", "", "", [], none, false⟩ =
      .error (.awsImageError m)) :=
  ⟨(check_image_state_classification _).1 rfl rfl rfl,
   (check_image_state_classification _).2.1 rfl rfl rfl,
   (check_image_state_classification _).2.2.1 rfl rfl (by decide) (by decide),
   (check_image_state_classification _).2.2.2.1 _ rfl (by decide),
   (check_image_state_classification _).2.2.2.2 rfl rfl⟩

/-- **C2**: `add_snapshot_ownership` issues the additive modify call and the
read-back, succeeding iff the user id is in the re-read permission list and
raising `AwsSnapshotNotOwnedError` otherwise; `remove_snapshot_ownership`
issues the subtractive modify call and the read-back, raising
`AwsSnapshotOwnedError` iff the user id is still present. -/
theorem snapshot_ownership_read_back (snapshot : Snapshot) (user_id : String) :
    ((add_snapshot_ownership snapshot user_id).2 = .ok () ↔
      user_id ∈ snapshot.createVolumePermissions) ∧
    ((∃ m, (add_snapshot_ownership snapshot user_id).2 =
        .error (.awsSnapshotNotOwnedError m)) ↔
      user_id ∉ snapshot.createVolumePermissions) ∧
    ((add_snapshot_ownership snapshot user_id).1 =
      [.modifyAttribute "add" user_id,
       .describeAttribute "createVolumePermission"]) ∧
    ((remove_snapshot_ownership snapshot user_id).2 = .ok () ↔
      user_id ∉ snapshot.createVolumePermissions) ∧
    ((∃ m, (remove_snapshot_ownership snapshot user_id).2 =
        .error (.awsSnapshotOwnedError m)) ↔
      user_id ∈ snapshot.createVolumePermissions) ∧
    ((remove_snapshot_ownership snapshot user_id).1 =
      [.modifyAttribute "remove" user_id,
       .describeAttribute "createVolumePermission"]) := by
  by_cases h : user_id ∈ snapshot.createVolumePermissions
  · have hc : snapshot.createVolumePermissions.contains user_id = true :=
      List.elem_iff.mpr h
    simp [add_snapshot_ownership, remove_snapshot_ownership, hc, h]
  · have hc : snapshot.createVolumePermissions.contains user_id = false := by
      rcases Bool.eq_false_or_eq_true
        (snapshot.createVolumePermissions.contains user_id) with ht | hf
      · exact absurd (List.elem_iff.mp ht) h
      · exact hf
    simp [add_snapshot_ownership, remove_snapshot_ownership, hc, h]

/-- The first `n` characters of a string are never more than `n`. -/
theorem pySlice_length_le (s : String) (n : Nat) : (pySlice s n).length ≤ n := by
  simp only [pySlice, String.length, List.length_take]
  omega

/-- Slicing to a bound not exceeding the length keeps exactly that many
characters. -/
theorem pySlice_length_of_le (s : String) (n : Nat) (h : n ≤ s.length) :
    (pySlice s n).length = n := by
  simp only [String.length] at h
  simp only [pySlice, String.length, List.length_take]
  omega

/-- Slicing an appended string to a bound at least the first part's length
keeps the whole first part at the front. -/
theorem pySlice_append_data (p s : String) (n : Nat) (h : p.length ≤ n) :
    ∃ rest, (pySlice (p ++ s) n).data = p.data ++ rest := by
  simp only [String.length] at h
  refine ⟨s.data.take (n - p.data.length), ?_⟩
  simp [pySlice, List.take_append_eq_append_take, List.take_of_length_le h]

/-- **C3**: on a successfully fetched source image, `copy_ami` copies under
the fixed marker name truncated to 128 characters and tags the copy with
that name, the original image id, and the original image name; the
truncated name keeps the marker at its front, and reaches the full 128
characters whenever the source name has at least 100 characters. -/
theorem copy_ami_marker_name (image : Image)
    (image_id source_region new_image_id : String)
    (hok : get_ami image = .ok (some image)) :
    copy_ami image image_id source_region new_image_id =
      ([.copyImage
          (pySlice ("cloudigrade reference copy (" ++ image.name ++ ")") 128)
          image_id source_region,
        .createTags [new_image_id]
          [("Name",
            pySlice ("cloudigrade reference copy (" ++ image.name ++ ")") 128),
           ("cloudigrade original image id", image.id),
           ("cloudigrade original image name", image.name)]],
       .ok (some new_image_id)) ∧
    (pySlice ("cloudigrade reference copy (" ++ image.name ++ ")") 128).length
      ≤ 128 ∧
    (∃ rest,
      (pySlice ("cloudigrade reference copy (" ++ image.name ++ ")") 128).data =
        "cloudigrade reference copy (".data ++ rest) ∧
    (100 ≤ image.name.length →
      (pySlice ("cloudigrade reference copy (" ++ image.name ++ ")") 128).length
        = 128) := by
  refine ⟨?_, pySlice_length_le _ _, ?_, ?_⟩
  · simp [copy_ami, hok]
  · rw [String.append_assoc]
    exact pySlice_append_data _ _ _ (by decide)
  · intro hname
    refine pySlice_length_of_le _ _ ?_
    rw [String.length_append, String.length_append]
    have h28 : ("cloudigrade reference copy (" : String).length = 28 := rfl
    have h1 : (")" : String).length = 1 := rfl
    omega

/-- Witness for C3: the 200-`'X'`-name round trip produces a tag name of
exactly 128 characters that keeps the marker at its front. -/
theorem copy_ami_marker_name_witness :
    get_ami longNameImage = .ok (some longNameImage) ∧
    (pySlice ("cloudigrade reference copy (" ++ longNameImage.name ++ ")") 128).length
      = 128 ∧
    (∃ rest,
      (pySlice ("cloudigrade reference copy (" ++ longNameImage.name ++ ")") 128).data =
        "cloudigrade reference copy (".data ++ rest) := by
  have hok : get_ami longNameImage = .ok (some longNameImage) := rfl
  have h := copy_ami_marker_name longNameImage "ami-long" "us-east-1" "ami-new" hok
  refine ⟨hok, h.2.2.2 ?_, h.2.2.1⟩
  show 100 ≤ longNameImage.name.length
  have h200 : longNameImage.name.length = 200 := by
    show (List.replicate 200 'X').length = 200
    rw [List.length_replicate]
  omega

/-- **C4**: when the fetch finds no usable image (the image check raised the
`AwsImageError` kind: not found, deregistered, or failed), `copy_ami`
returns `none` normally and issues no copy or tag call. -/
theorem copy_ami_image_gone (image : Image)
    (image_id source_region new_image_id : String) (m : String)
    (h : check_image_state image = .error (.awsImageError m)) :
    get_ami image = .ok none ∧
    copy_ami image image_id source_region new_image_id = ([], .ok none) := by
  have hget : get_ami image = .ok none := by
    simp [get_ami, h]
  exact ⟨hget, by simp [copy_ami, hget]⟩

/-- Witness for C4: a deregistered image (no metadata) leads `copy_ami` to
return `none` with no actions issued. -/
theorem copy_ami_image_gone_witness :
    check_image_state ⟨"ami-gone", "n", "", "", "", [], none, false⟩ =
      .error (.awsImageError
        "Image ami-gone cannot be loaded, it has probably been deregistered.") ∧
    copy_ami ⟨"ami-gone", "n", "", "", "", [], none, false⟩
      "ami-gone" "us-east-1" "ami-new" = ([], .ok none) :=
  ⟨rfl,
   (copy_ami_image_gone ⟨"ami-gone", "n", "", "", "", [], none, false⟩
     "ami-gone" "us-east-1" "ami-new"
     "Image ami-gone cannot be loaded, it has probably been deregistered."
     rfl).2⟩

/-- Counterexample to C5: on an empty batch result, `describe_image` raises
Python's untyped `IndexError` from `[0]`, not the `ImageUnavailable`-kind
typed failure (`AwsImageError`). -/
theorem describe_image_empty_counterexample :
    describe_image [] = .error .indexError ∧
    isImageUnavailableFailure (describe_image []) = false :=
  ⟨rfl, rfl⟩

/-- **C5 (amended)**: when the batch result is empty, `describe_image`
fails with the untyped `IndexError` of indexing the empty list; otherwise
it returns the first element of the batch result. -/
theorem describe_image_indexes_batch_result :
    describe_image [] = .error .indexError ∧
    (∀ (img : Image) (rest : List Image),
      describe_image (img :: rest) = .ok img) :=
  ⟨rfl, fun _ _ => rfl⟩

/-- Every instance collected by the per-region fold either was already in
the accumulator or passed the non-terminated filter. -/
theorem collect_foldl_not_terminated (rs : List Reservation) (acc : List Instance)
    (hacc : ∀ i ∈ acc, i.stateCode ≠ some InstanceState.terminated.value) :
    ∀ i ∈ rs.foldl
        (fun acc reservation =>
          acc ++ reservation.instances.filter
            (fun inst => inst.stateCode != some InstanceState.terminated.value))
        acc,
      i.stateCode ≠ some InstanceState.terminated.value := by
  induction rs generalizing acc with
  | nil => simpa using hacc
  | cons r rs ih =>
    intro i hi
    refine ih _ ?_ i hi
    intro j hj
    rcases List.mem_append.mp hj with hj | hj
    · exact hacc j hj
    · have hpred := (List.mem_filter.mp hj).2
      simpa using hpred

/-- **C6**: `describe_instances_everywhere` keys its result by exactly the
regions known to the session (in order, empty regions included, each mapped
to a possibly empty list), and no returned instance descriptor carries the
terminated state code 48. -/
theorem describe_instances_everywhere_spec (session : Session) :
    ((describe_instances_everywhere session).map Prod.fst = session.regions) ∧
    (∀ region lst, (region, lst) ∈ describe_instances_everywhere session →
      ∀ inst ∈ lst, inst.stateCode ≠ some InstanceState.terminated.value) := by
  constructor
  · simp [describe_instances_everywhere, List.map_map, Function.comp_def]
  · intro region lst hmem inst hinst
    rcases List.mem_map.mp hmem with ⟨r, _, heq⟩
    injection heq with h1 h2
    subst h1
    subst h2
    refine collect_foldl_not_terminated _ [] ?_ inst hinst
    intro j hj
    simp at hj

/-- Witness for C6: on `sampleSession` the result is keyed by both regions
and the surviving instance of the busy region is not terminated. -/
theorem describe_instances_everywhere_spec_witness :
    (describe_instances_everywhere sampleSession).map Prod.fst =
      ["us-east-1", "eu-west-1"] ∧
    (⟨"i-1", some 16⟩ : Instance).stateCode ≠
      some InstanceState.terminated.value := by
  constructor
  · exact (describe_instances_everywhere_spec sampleSession).1
  · exact (describe_instances_everywhere_spec sampleSession).2 "us-east-1"
      [⟨"i-1", some 16⟩] (by decide) ⟨"i-1", some 16⟩ (by decide)

/-- The mapping walk of `get_ami_snapshot_id` returns the derived snapshot
id of the first mapping matching the root device name. -/
theorem get_ami_snapshot_id_go_eq (ami : Image) (l : List BlockDeviceMapping) :
    get_ami_snapshot_id.go ami l =
      (l.find? (fun m => m.deviceName == ami.root_device_name)).map
        (fun m => (m.ebsSnapshotId.getD none).getD "") := by
  induction l with
  | nil => rfl
  | cons m rest ih =>
    by_cases h : m.deviceName = ami.root_device_name
    · simp [get_ami_snapshot_id.go, h, List.find?]
    · have hb : (m.deviceName == ami.root_device_name) = false :=
        beq_eq_false_iff_ne.mpr h
      simp [get_ami_snapshot_id.go, h, List.find?, ih, hb]

/-- **C7**: `get_ami_snapshot_id` derives the snapshot id exclusively from
the first block-device mapping whose device name equals the image's root
device name; on the spec's example mappings it yields `"snap-1"`, and the
empty string when the matching mapping has no `Ebs.SnapshotId`. -/
theorem get_ami_snapshot_id_root_device :
    (∀ ami : Image,
      get_ami_snapshot_id ami =
        (ami.block_device_mappings.find?
          (fun m => m.deviceName == ami.root_device_name)).map
          (fun m => (m.ebsSnapshotId.getD none).getD "")) ∧
    get_ami_snapshot_id sampleAmi = some "snap-1" ∧
    get_ami_snapshot_id sampleAmiNoSnapshotId = some "" :=
  ⟨fun ami => get_ami_snapshot_id_go_eq ami _, rfl, rfl⟩

/-- **C8**: `copy_snapshot` turns a `ResourceLimitExceeded` client error
into the retryable `AwsSnapshotCopyLimitError`, re-raises every other
client error unchanged, and on success returns the copied snapshot's id. -/
theorem copy_snapshot_error_translation :
    (∀ m : String,
      copy_snapshot (.error ⟨"ResourceLimitExceeded", m⟩) =
        .error (.awsSnapshotCopyLimitError m)) ∧
    (∀ e : ClientErrorInfo, e.code ≠ "ResourceLimitExceeded" →
      copy_snapshot (.error e) = .error (.clientError e)) ∧
    (∀ response : CopySnapshotResponse,
      copy_snapshot (.ok response) = .ok response.snapshotId) := by
  refine ⟨fun m => rfl, ?_, fun response => rfl⟩
  intro e he
  simp [copy_snapshot, he]

/-- Witness for C8: an `AccessDenied` client error is re-raised unchanged. -/
theorem copy_snapshot_error_translation_witness :
    copy_snapshot (.error ⟨"AccessDenied", "denied"⟩) =
      .error (.clientError ⟨"AccessDenied", "denied"⟩) :=
  copy_snapshot_error_translation.2.1 ⟨"AccessDenied", "denied"⟩ (by decide)

/-- **C9**: `create_volume` creates the volume only for a snapshot in state
`"completed"`; state `"error"` raises the terminal `AwsSnapshotError` and
any other non-`"completed"` state raises the retryable
`SnapshotNotReadyException`, in both cases with no volume-creation call
issued. -/
theorem create_volume_requires_completed (snapshot : Snapshot)
    (zone volume_id : String) :
    (snapshot.state = "completed" →
      create_volume snapshot zone volume_id =
        ([.createVolume snapshot.snapshot_id zone], .ok volume_id)) ∧
    (snapshot.state = "error" →
      ∃ m, create_volume snapshot zone volume_id =
        ([], .error (.awsSnapshotError m))) ∧
    (snapshot.state ≠ "completed" → snapshot.state ≠ "error" →
      ∃ m, create_volume snapshot zone volume_id =
        ([], .error (.snapshotNotReadyException m))) := by
  refine ⟨?_, ?_, ?_⟩
  · intro h
    simp [create_volume, check_snapshot_state, h]
  · intro h
    simp [create_volume, check_snapshot_state, h]
  · intro hc he
    simp [create_volume, check_snapshot_state, hc, he]

/-- Witness for C9: the three snapshot states at concrete snapshots. -/
theorem create_volume_requires_completed_witness :
    create_volume ⟨"snap-ok", "completed", "100%", []⟩ "us-east-1a" "vol-1" =
      ([.createVolume "snap-ok" "us-east-1a"], .ok "vol-1") ∧
    (∃ m, create_volume ⟨"snap-err", "error", "0%", []⟩ "us-east-1a" "vol-2" =
      ([], .error (.awsSnapshotError m))) ∧
    (∃ m, create_volume ⟨"snap-mid", "pending", "40%", []⟩ "us-east-1a" "vol-3" =
      ([], .error (.snapshotNotReadyException m))) :=
  ⟨(create_volume_requires_completed _ _ _).1 rfl,
   (create_volume_requires_completed _ _ _).2.1 rfl,
   (create_volume_requires_completed _ _ _).2.2 (by decide) (by decide)⟩

/-- **C10**: `is_windows` lowercases the `"Platform"` value of a
dict-shaped descriptor before comparing, but compares an object-shaped
descriptor's `platform` attribute to `"windows"` exactly, so the same
logical descriptor can classify differently by representation. -/
theorem is_windows_representation_dependent :
    (∀ s : String, is_windows (.dict (some s)) = (pyLower s == "windows")) ∧
    (∀ s : String, is_windows (.obj (some s)) = (s == "windows")) ∧
    is_windows (.dict (some "Windows")) = true ∧
    is_windows (.obj (some "Windows")) = false ∧
    is_windows (.obj (some "windows")) = true ∧
    is_windows (.dict none) = false ∧
    is_windows (.obj none) = false := by
  refine ⟨fun s => rfl, fun s => ?_, by decide, by decide, by decide, by decide, by decide⟩
  simp [is_windows]

end Cloudigrade
